import Mathlib

/-!
Verification of the encoder-initialization resolver, freeze policy and
test-phase gate of `examples/slu/speech_intent_slot/speech_intent_slot_train.py`.

The script's `main` reads `cfg.pretrained_encoder.name` and branches:
absent → nothing; an existing local file → load a state dict (raw
checkpoint or `.nemo` archive) into the whole model non-strictly; a
symbolic name → download a pretrained model (selected by the `ssl_` /
`stt_` name prefix) and load only its encoder state dict into the target
encoder.  Afterwards the encoder is frozen or unfrozen per
`cfg.pretrained_encoder.freeze`, and after `trainer.fit` a test pass runs
only under a three-way guard.

The embedding models tensors as abstract integer values, state dicts as
association lists from parameter name to value, and the filesystem /
checkpoint-loading / model-registry collaborators as an explicit
environment record.  Observable I/O is recorded as a list of events and a
raised Python exception as an `error` field of the result.
-/

namespace SpeechIntentSlotTrain

/-- A weights mapping (PyTorch state dict): parameter name to tensor,
with tensors abstracted as integers. -/
abbrev StateDict := List (String × Int)

/-- Literal "ssl_" from the script. -/
def sslPre : String := "ssl_"

/-- Literal "stt_" from the script. -/
def sttPre : String := "stt_"

/-- Literal ".nemo" from the script. -/
def nemoSuffix : String := ".nemo"

/-- Literal "state_dict", the key indexed in the raw-checkpoint branch. -/
def stateDictKey : String := "state_dict"

/-- The key namespace under which encoder parameters appear in the whole
model's state dict. -/
def encoderKeyPre : String := "encoder."

/-- Python `s.startswith(pre)`: `pre` is a list-of-characters prefix of `s`. -/
def pyStartsWith (s pre : String) : Bool :=
  pre.data.isPrefixOf s.data

/-- Python `s.endswith(suf)`: `suf` is a list-of-characters suffix of `s`. -/
def pyEndsWith (s suf : String) : Bool :=
  suf.data.isSuffixOf s.data

/-- Which pretrained model class the symbolic-name branch selects:
`SpeechEncDecSelfSupervisedModel` for `ssl_` names, `ASRModel` for
`stt_` names. -/
inductive ModelCls where
  | speechEncDecSelfSupervisedModel
  | asrModel
deriving DecidableEq, Repr

/-- Observable file / network I/O performed by the resolver:
`torch.load` of a local raw checkpoint, `ASRModel.restore_from` of a
local `.nemo` archive, or `from_pretrained` (a remote download) of a
named model via a given class. -/
inductive Event where
  | torchLoad (path : String)
  | restoreFrom (path : String)
  | fromPretrained (cls : ModelCls) (name : String)
deriving DecidableEq, Repr

/-- Python exceptions the resolver itself can raise: the
`ValueError(f"Unknown pretrained encoder: ...")` for an unrecognized
symbolic name, and the `KeyError` from indexing the loaded checkpoint
dictionary with a missing key. -/
inductive ResolveError where
  | unknownEncoder (name : String)
  | keyError (key : String)
deriving DecidableEq, Repr

/-- The target `SLUIntentSlotBPEModel`: encoder parameters (under their
bare names, as seen by `model.encoder.load_state_dict` /
`model.encoder.state_dict()`), the remaining (non-encoder) parameters
(under their full names), and whether the encoder parameters currently
require gradients. -/
structure Model where
  encoder : StateDict
  head : StateDict
  encoderTrainable : Bool
deriving DecidableEq, Repr

/-- The `cfg.pretrained_encoder` section: `name` (a string or Python
`None`) and the boolean `freeze` flag. -/
structure PretrainedEncoderCfg where
  name : Option String
  freeze : Bool
deriving DecidableEq, Repr

/-- The external collaborators: `Path(...).is_file()`, `torch.load`
(returning a dictionary whose values are themselves state dicts),
`ASRModel.restore_from` followed by `.state_dict()` (the restored
model's full parameter mapping), and `from_pretrained` followed by
`.encoder.state_dict()` (the downloaded model's encoder parameter
mapping). -/
structure Env where
  fileExists : String → Bool
  torchLoad : String → List (String × StateDict)
  restoreFromSD : String → StateDict
  pretrainedEncoderSD : ModelCls → String → StateDict

/-- Non-strict application (`load_state_dict(..., strict=False)`) of a
source state dict `sd` onto a target parameter set whose keys appear in
`sd` under the namespace `pre`: every target parameter whose namespaced
name has an entry in `sd` takes that value, every other target parameter
keeps its value, and unmatched source keys are ignored. -/
def applyNonStrict (target : StateDict) (pre : String) (sd : StateDict) : StateDict :=
  target.map (fun p => (p.1, ((sd.lookup (pre ++ p.1)).getD p.2)))

/-- `model.load_state_dict(sd, strict=False)` on the whole target model:
encoder parameters are matched under the `encoder.` namespace and the
remaining parameters under their own full names. -/
def model_load_state_dict (m : Model) (sd : StateDict) : Model :=
  { m with
    encoder := applyNonStrict m.encoder encoderKeyPre sd
    head := applyNonStrict m.head ("") sd }

/-- `model.encoder.load_state_dict(sd, strict=False)`: only the encoder
parameters are touched, matched under their bare names. -/
def encoder_load_state_dict (m : Model) (sd : StateDict) : Model :=
  { m with encoder := applyNonStrict m.encoder ("") sd }

/-- Outcome of running the encoder-initialization block: the model state
when the block finished (or when an exception was raised), the I/O
events performed, and the exception raised, if any. -/
structure ResolveResult where
  model : Model
  events : List Event
  error : Option ResolveError
deriving DecidableEq, Repr

/-- The `# Init encoder from pretrained model` block of `main`,
lines 88–117 of the script, as a function of the environment, the
configured name and the freshly constructed model. -/
def resolveEncoder (env : Env) (pretrained_encoder_name : Option String)
    (model : Model) : ResolveResult :=
  match pretrained_encoder_name with
  | some name =>
    if env.fileExists name then
      if !(pyEndsWith name nemoSuffix) then
        match (env.torchLoad name).lookup stateDictKey with
        | some sd =>
          { model := model_load_state_dict model sd
            events := [Event.torchLoad name]
            error := none }
        | none =>
          { model := model
            events := [Event.torchLoad name]
            error := some (ResolveError.keyError stateDictKey) }
      else
        { model := model_load_state_dict model (env.restoreFromSD name)
          events := [Event.restoreFrom name]
          error := none }
    else
      if pyStartsWith name sslPre then
        { model := encoder_load_state_dict model
            (env.pretrainedEncoderSD ModelCls.speechEncDecSelfSupervisedModel name)
          events := [Event.fromPretrained ModelCls.speechEncDecSelfSupervisedModel name]
          error := none }
      else if pyStartsWith name sttPre then
        { model := encoder_load_state_dict model
            (env.pretrainedEncoderSD ModelCls.asrModel name)
          events := [Event.fromPretrained ModelCls.asrModel name]
          error := none }
      else
        { model := model
          events := []
          error := some (ResolveError.unknownEncoder name) }
  | none =>
    { model := model, events := [], error := none }

/-- Lines 119–123 of the script: `model.encoder.freeze()` when the flag
is true, `model.encoder.unfreeze()` otherwise. -/
def applyFreezePolicy (freeze : Bool) (m : Model) : Model :=
  if freeze then { m with encoderTrainable := false }
  else { m with encoderTrainable := true }

/-- The encoder-initialization block followed by the freeze policy;
when the block raised, execution stops there and the freeze policy never
runs. -/
def initEncoderAndFreeze (env : Env) (cfg : PretrainedEncoderCfg) (m : Model) :
    ResolveResult :=
  let r := resolveEncoder env cfg.name m
  match r.error with
  | some _ => r
  | none => { r with model := applyFreezePolicy cfg.freeze r.model }

/-- The `test_ds` section of the model config; `manifest_filepath` is a
string or Python `None`. -/
structure TestDsCfg where
  manifest_filepath : Option String
deriving DecidableEq, Repr

/-- The `cfg.model` section as far as the test gate reads it:
`test_ds` is absent when `hasattr(cfg.model, 'test_ds')` is false. -/
structure ModelSection where
  test_ds : Option TestDsCfg
deriving DecidableEq, Repr

/-- Lines 127–129 of the script: whether `trainer.test(model)` is
invoked, given the model config section and the boolean returned by
`model.prepare_test(trainer)`. -/
def shouldRunTest (modelCfg : ModelSection) (prepare_test : Bool) : Bool :=
  match modelCfg.test_ds with
  | some tds =>
    match tds.manifest_filepath with
    | some _ => prepare_test
    | none => false
  | none => false

/-- A small concrete model used to instantiate the theorems below. -/
def sampleModel : Model :=
  { encoder := [(("w1"), 0), (("w2"), 1)]
    head := [(("decoder.w"), 2)]
    encoderTrainable := true }

/-- A small concrete environment: `ckpt.pt` is a raw checkpoint with a
`state_dict` entry, `raw.bin` is a raw checkpoint without one,
`model.nemo` is a restorable archive, and every symbolic name downloads
an encoder with one parameter. -/
def sampleEnv : Env :=
  { fileExists := fun s => s == ("ckpt.pt") || s == ("model.nemo") || s == ("raw.bin")
    torchLoad := fun s =>
      if s == ("ckpt.pt") then [(("state_dict"), [(("encoder.w1"), 7)])] else []
    restoreFromSD := fun _ => [(("encoder.w1"), 9), (("decoder.w"), 5)]
    pretrainedEncoderSD := fun _ _ => [(("w1"), 3)] }

/-- A string starting with `stt_` cannot also start with `ssl_`: the
second characters differ. -/
theorem pyStartsWith_stt_not_ssl (s : String)
    (h : pyStartsWith s sttPre = true) : pyStartsWith s sslPre = false := by
  unfold pyStartsWith at h ⊢
  rw [List.isPrefixOf_iff_prefix] at h
  rw [Bool.eq_false_iff, Ne, List.isPrefixOf_iff_prefix]
  intro hc
  rcases List.prefix_or_prefix_of_prefix h hc with hp | hp
  · exact absurd (hp.eq_of_length (by decide)) (by decide)
  · exact absurd (hp.eq_of_length (by decide)) (by decide)

/-- Claim C1: `trainer.test(model)` runs if and only if the model config
has a `test_ds` section, that section's `manifest_filepath` is not
`None`, and `model.prepare_test(trainer)` returns true; if any condition
fails the gate simply returns false (the test phase is skipped, no
error). -/
theorem test_gate_iff (modelCfg : ModelSection) (prepare_test : Bool) :
    shouldRunTest modelCfg prepare_test = true ↔
      ((∃ tds, modelCfg.test_ds = some tds ∧ tds.manifest_filepath ≠ none) ∧
        prepare_test = true) := by
  unfold shouldRunTest
  rcases modelCfg with ⟨_ | ⟨⟨_ | mf⟩⟩⟩ <;> simp

/-- Claim C2: when `pretrained_encoder.name` is `None`, the whole
block performs no file or network I/O and the model's encoder and
non-encoder parameters stay exactly as freshly constructed; no error is
raised. -/
theorem no_pretrained_name_no_io (env : Env) (fz : Bool) (m : Model) :
    (initEncoderAndFreeze env { name := none, freeze := fz } m).model.encoder
        = m.encoder ∧
    (initEncoderAndFreeze env { name := none, freeze := fz } m).model.head
        = m.head ∧
    (initEncoderAndFreeze env { name := none, freeze := fz } m).events = [] ∧
    (initEncoderAndFreeze env { name := none, freeze := fz } m).error = none := by
  cases fz <;> simp [initEncoderAndFreeze, resolveEncoder, applyFreezePolicy]

/-- Claim C3: a symbolic name (no local file of that name) starting with
neither `ssl_` nor `stt_` makes the resolver raise the unknown-encoder
`ValueError` carrying the name, with no checkpoint load or remote
download attempted and the model untouched. -/
theorem unknown_symbolic_name_fails (env : Env) (name : String) (m : Model)
    (hfile : env.fileExists name = false)
    (hssl : pyStartsWith name sslPre = false)
    (hstt : pyStartsWith name sttPre = false) :
    resolveEncoder env (some name) m =
      { model := m
        events := []
        error := some (ResolveError.unknownEncoder name) } := by
  simp [resolveEncoder, hfile, hssl, hstt]

/-- Witness for C3 at the concrete name `foo` in the sample
environment. -/
theorem unknown_symbolic_name_fails_witness :
    resolveEncoder sampleEnv (some ("foo")) sampleModel =
      { model := sampleModel
        events := []
        error := some (ResolveError.unknownEncoder ("foo")) } :=
  unknown_symbolic_name_fails sampleEnv ("foo") sampleModel
    (by decide) (by decide) (by decide)

/-- Claim C4: an existing local file whose name does not end in `.nemo`
is treated as a raw checkpoint: `torch.load` is performed, the loaded
dictionary's `state_dict` entry is extracted, and it is applied
non-strictly to the whole target model — the encoder parameters
(matched under the `encoder.` namespace) and the non-encoder parameters
alike. -/
theorem raw_checkpoint_loads_whole_model (env : Env) (name : String)
    (m : Model) (sd : StateDict)
    (hfile : env.fileExists name = true)
    (hnemo : pyEndsWith name nemoSuffix = false)
    (hsd : (env.torchLoad name).lookup stateDictKey = some sd) :
    resolveEncoder env (some name) m =
      { model := model_load_state_dict m sd
        events := [Event.torchLoad name]
        error := none } ∧
    (model_load_state_dict m sd).encoder
        = applyNonStrict m.encoder encoderKeyPre sd ∧
    (model_load_state_dict m sd).head = applyNonStrict m.head ("") sd := by
  refine ⟨?_, rfl, rfl⟩
  simp [resolveEncoder, hfile, hnemo, hsd]

/-- Witness for C4 at the concrete raw checkpoint `ckpt.pt` in the
sample environment. -/
theorem raw_checkpoint_loads_whole_model_witness :
    resolveEncoder sampleEnv (some ("ckpt.pt")) sampleModel =
      { model := model_load_state_dict sampleModel [(("encoder.w1"), 7)]
        events := [Event.torchLoad ("ckpt.pt")]
        error := none } ∧
    (model_load_state_dict sampleModel [(("encoder.w1"), 7)]).encoder
        = applyNonStrict sampleModel.encoder encoderKeyPre [(("encoder.w1"), 7)] ∧
    (model_load_state_dict sampleModel [(("encoder.w1"), 7)]).head
        = applyNonStrict sampleModel.head ("") [(("encoder.w1"), 7)] :=
  raw_checkpoint_loads_whole_model sampleEnv ("ckpt.pt") sampleModel
    [(("encoder.w1"), 7)] (by decide) (by decide) (by decide)

/-- Claim C5: an existing local file whose name ends in `.nemo` is
restored as a complete source model (`ASRModel.restore_from`), whose
full state dict is applied non-strictly to the whole target model; the
result depends on the restored model only through that state dict (the
intermediate model is discarded). -/
theorem nemo_archive_loads_whole_model (env : Env) (name : String) (m : Model)
    (hfile : env.fileExists name = true)
    (hnemo : pyEndsWith name nemoSuffix = true) :
    resolveEncoder env (some name) m =
      { model := model_load_state_dict m (env.restoreFromSD name)
        events := [Event.restoreFrom name]
        error := none } ∧
    (model_load_state_dict m (env.restoreFromSD name)).encoder
        = applyNonStrict m.encoder encoderKeyPre (env.restoreFromSD name) ∧
    (model_load_state_dict m (env.restoreFromSD name)).head
        = applyNonStrict m.head ("") (env.restoreFromSD name) := by
  refine ⟨?_, rfl, rfl⟩
  simp [resolveEncoder, hfile, hnemo]

/-- Witness for C5 at the concrete archive `model.nemo` in the sample
environment. -/
theorem nemo_archive_loads_whole_model_witness :
    resolveEncoder sampleEnv (some ("model.nemo")) sampleModel =
      { model := model_load_state_dict sampleModel
            (sampleEnv.restoreFromSD ("model.nemo"))
        events := [Event.restoreFrom ("model.nemo")]
        error := none } ∧
    (model_load_state_dict sampleModel
        (sampleEnv.restoreFromSD ("model.nemo"))).encoder
      = applyNonStrict sampleModel.encoder encoderKeyPre
          (sampleEnv.restoreFromSD ("model.nemo")) ∧
    (model_load_state_dict sampleModel
        (sampleEnv.restoreFromSD ("model.nemo"))).head
      = applyNonStrict sampleModel.head ("")
          (sampleEnv.restoreFromSD ("model.nemo")) :=
  nemo_archive_loads_whole_model sampleEnv ("model.nemo") sampleModel
    (by decide) (by decide)

/-- Claim C6: a symbolic name starting with `ssl_` (no local file of
that name) is downloaded via `SpeechEncDecSelfSupervisedModel` and only
the downloaded encoder's state dict is loaded, non-strictly, into the
target model's encoder; the non-encoder parameters are untouched. -/
theorem ssl_name_loads_encoder_only (env : Env) (name : String) (m : Model)
    (hfile : env.fileExists name = false)
    (hssl : pyStartsWith name sslPre = true) :
    resolveEncoder env (some name) m =
      { model := encoder_load_state_dict m
          (env.pretrainedEncoderSD ModelCls.speechEncDecSelfSupervisedModel name)
        events := [Event.fromPretrained
          ModelCls.speechEncDecSelfSupervisedModel name]
        error := none } ∧
    (encoder_load_state_dict m
        (env.pretrainedEncoderSD ModelCls.speechEncDecSelfSupervisedModel name)).head
      = m.head := by
  refine ⟨?_, rfl⟩
  simp [resolveEncoder, hfile, hssl]

/-- Witness for C6 at the concrete name `ssl_x` in the sample
environment. -/
theorem ssl_name_loads_encoder_only_witness :
    resolveEncoder sampleEnv (some ("ssl_x")) sampleModel =
      { model := encoder_load_state_dict sampleModel
          (sampleEnv.pretrainedEncoderSD
            ModelCls.speechEncDecSelfSupervisedModel ("ssl_x"))
        events := [Event.fromPretrained
          ModelCls.speechEncDecSelfSupervisedModel ("ssl_x")]
        error := none } ∧
    (encoder_load_state_dict sampleModel
        (sampleEnv.pretrainedEncoderSD
          ModelCls.speechEncDecSelfSupervisedModel ("ssl_x"))).head
      = sampleModel.head :=
  ssl_name_loads_encoder_only sampleEnv ("ssl_x") sampleModel
    (by decide) (by decide)

/-- Claim C7: a symbolic name starting with `stt_` (no local file of
that name) is downloaded via the generic `ASRModel` class and only the
downloaded encoder's state dict is loaded, non-strictly, into the
target model's encoder; the non-encoder parameters are untouched.  (A
name starting with `stt_` cannot start with `ssl_`, so the `elif`
branch is reached.) -/
theorem stt_name_loads_encoder_only (env : Env) (name : String) (m : Model)
    (hfile : env.fileExists name = false)
    (hstt : pyStartsWith name sttPre = true) :
    resolveEncoder env (some name) m =
      { model := encoder_load_state_dict m
          (env.pretrainedEncoderSD ModelCls.asrModel name)
        events := [Event.fromPretrained ModelCls.asrModel name]
        error := none } ∧
    (encoder_load_state_dict m
        (env.pretrainedEncoderSD ModelCls.asrModel name)).head = m.head := by
  refine ⟨?_, rfl⟩
  have hssl := pyStartsWith_stt_not_ssl name hstt
  simp [resolveEncoder, hfile, hssl, hstt]

/-- Witness for C7 at the concrete name `stt_x` in the sample
environment. -/
theorem stt_name_loads_encoder_only_witness :
    resolveEncoder sampleEnv (some ("stt_x")) sampleModel =
      { model := encoder_load_state_dict sampleModel
          (sampleEnv.pretrainedEncoderSD ModelCls.asrModel ("stt_x"))
        events := [Event.fromPretrained ModelCls.asrModel ("stt_x")]
        error := none } ∧
    (encoder_load_state_dict sampleModel
        (sampleEnv.pretrainedEncoderSD ModelCls.asrModel ("stt_x"))).head
      = sampleModel.head :=
  stt_name_loads_encoder_only sampleEnv ("stt_x") sampleModel
    (by decide) (by decide)

/-- Claim C8: whenever the encoder-initialization block completes
without raising, the freeze policy runs regardless of which sourcing
branch was taken: the encoder parameters require gradients afterwards
exactly when the `freeze` flag is false. -/
theorem freeze_policy_unconditional (env : Env) (cfg : PretrainedEncoderCfg)
    (m : Model) (h : (initEncoderAndFreeze env cfg m).error = none) :
    (initEncoderAndFreeze env cfg m).model.encoderTrainable = !cfg.freeze := by
  simp only [initEncoderAndFreeze] at h ⊢
  cases he : (resolveEncoder env cfg.name m).error with
  | some e =>
    rw [he] at h
    simp at h
    rw [h] at he
    simp at he
  | none =>
    cases hf : cfg.freeze <;> simp [applyFreezePolicy]

/-- Witness for C8: in the no-pretrained-source branch with the freeze
flag set, the encoder ends up not trainable. -/
theorem freeze_policy_unconditional_witness :
    (initEncoderAndFreeze sampleEnv { name := none, freeze := true }
        sampleModel).model.encoderTrainable
      = !(PretrainedEncoderCfg.freeze { name := none, freeze := true }) :=
  freeze_policy_unconditional sampleEnv { name := none, freeze := true }
    sampleModel (by decide)

/-- Claim C9: an empty-string name is not treated as the absent case:
it is not `None`, `Path("").is_file()` is false, and the empty string
starts with neither `ssl_` nor `stt_`, so the resolver raises the
unknown-encoder `ValueError` instead of leaving the encoder alone. -/
theorem empty_name_raises_unknown (env : Env) (m : Model)
    (hfile : env.fileExists ("") = false) :
    resolveEncoder env (some ("")) m =
      { model := m
        events := []
        error := some (ResolveError.unknownEncoder ("")) } := by
  simp [resolveEncoder, hfile, pyStartsWith, sslPre, sttPre,
    List.isPrefixOf]

/-- Witness for C9 in the sample environment, where no file named by
the empty string exists. -/
theorem empty_name_raises_unknown_witness :
    resolveEncoder sampleEnv (some ("")) sampleModel =
      { model := sampleModel
        events := []
        error := some (ResolveError.unknownEncoder ("")) } :=
  empty_name_raises_unknown sampleEnv sampleModel (by decide)

/-- Claim C10: in the raw-checkpoint branch, the loaded dictionary is
indexed with `state_dict` with no guard: when that key is absent, a
`KeyError` is raised after the `torch.load` but before any weights are
applied, so the model's parameters are unchanged. -/
theorem raw_checkpoint_missing_state_dict (env : Env) (name : String)
    (m : Model)
    (hfile : env.fileExists name = true)
    (hnemo : pyEndsWith name nemoSuffix = false)
    (hsd : (env.torchLoad name).lookup stateDictKey = none) :
    resolveEncoder env (some name) m =
      { model := m
        events := [Event.torchLoad name]
        error := some (ResolveError.keyError stateDictKey) } := by
  simp [resolveEncoder, hfile, hnemo, hsd]

/-- Witness for C10 at the concrete file `raw.bin`, whose loaded
dictionary has no `state_dict` entry. -/
theorem raw_checkpoint_missing_state_dict_witness :
    resolveEncoder sampleEnv (some ("raw.bin")) sampleModel =
      { model := sampleModel
        events := [Event.torchLoad ("raw.bin")]
        error := some (ResolveError.keyError stateDictKey) } :=
  raw_checkpoint_missing_state_dict sampleEnv ("raw.bin") sampleModel
    (by decide) (by decide) (by decide)

end SpeechIntentSlotTrain
